import Mathlib

/-!
# The libretro window shim and plugin lifecycle of LOVE

A shallow embedding of `src/libretro/Window.cpp` and `src/libretro/main.cpp`.

* The C++ object `Window` becomes the record `Window`; every member function
  becomes a function that takes the record and returns the new record next to
  its result.  A member function that can `throw` returns an `Outcome`.
* `double` arithmetic is kept abstract in `DoubleOps`: the window code is a
  fixed sequence of casts, products and quotients, and most statements hold
  for any interpretation of these.  `exactOps` interprets them in the
  rationals.
* The graphics subsystem, the Lua engine and the libretro host are outside the
  two source files.  Calls made into them are recorded, in order, in a call
  log, and values they hand back are arguments of the embedded function.
-/

namespace Love

/-! ## Arithmetic on `double` -/

/-- The operations on `double` that `Window.cpp` uses. -/
structure DoubleOps (D : Type) where
  /-- The cast `(double) i`. -/
  ofInt : Int → D
  /-- The product `a * b`. -/
  mul : D → D → D
  /-- The quotient `a / b`. -/
  div : D → D → D
  /-- The cast `(int) d`. -/
  toInt : D → Int
  /-- The literal `0.0`. -/
  zero : D
  /-- The literal `1.0`. -/
  one : D

/-- Exact rational arithmetic; `(int) q` truncates toward zero.  A quotient by
zero takes the value `0` here, so statements over `exactOps` are read with
nonzero divisors only. -/
def exactOps : DoubleOps ℚ where
  ofInt := fun i => (i : ℚ)
  mul := fun a b => a * b
  div := fun a b => a / b
  toInt := fun q => Int.tdiv q.num q.den
  zero := 0
  one := 1

/-! ## Data model of the window -/

/-- Result of a member function that may `throw love::Exception`. -/
inductive Outcome (α : Type) where
  | returned (value : α)
  | raised (what : String)
  deriving DecidableEq, Repr

/-- Whether the call ended in a `throw`. -/
def Outcome.isRaised {α : Type} : Outcome α → Bool
  | .returned _ => false
  | .raised _ => true

/-- Modelled from the spec: the enumeration `Window::FullscreenType` is
declared in a header outside src; an enumerator is kept as its integer
value. -/
abbrev FullscreenType := Nat

/-- Modelled from the spec: the struct `WindowSettings` is declared in a header
outside src.  The fields are the ones the spec lists for the settings snapshot
(logical size, fullscreen flag and type, DPI-scaling flag, vsync mode,
resizable, borderless, always-on-top); `fstype` and `usedpiscale` are the two
that `Window.cpp` reads. -/
structure WindowSettings where
  width : Int
  height : Int
  fullscreen : Bool
  fstype : FullscreenType
  usedpiscale : Bool
  vsync : Int
  resizable : Bool
  borderless : Bool
  alwaysontop : Bool
  deriving DecidableEq, Repr, Inhabited

/-- A call the window makes into the graphics subsystem. -/
inductive GraphicsCall where
  | unSetMode
  | setViewportSize (width height pixelwidth pixelheight : Int)
  deriving DecidableEq, Repr

/-- Modelled from the spec: the graphics subsystem `graphics::Graphics` lives
outside src.  The window only asks it whether a canvas is active and notifies
it; the record holds that answer and the log of notifications received. -/
structure Graphics where
  canvasActive : Bool
  calls : List GraphicsCall
  deriving DecidableEq, Repr

/-- The query `graphics->isCanvasActive()`. -/
def Graphics.isCanvasActive (g : Graphics) : Bool :=
  g.canvasActive

/-- The notification `graphics->unSetMode()`. -/
def Graphics.unSetMode (g : Graphics) : Graphics :=
  { g with calls := g.calls ++ [GraphicsCall.unSetMode] }

/-- The notification `graphics->setViewportSize(w, h, pw, ph)`. -/
def Graphics.setViewportSize (g : Graphics) (width height pixelwidth pixelheight : Int) :
    Graphics :=
  { g with calls := g.calls ++ [GraphicsCall.setViewportSize width height pixelwidth pixelheight] }

/-- Modelled from the spec: `PixelFormat` is declared in a header outside src.
`Window.cpp` compares against `PIXELFORMAT_RGBA8` only; every other enumerator
is kept as `other` with its integer value. -/
inductive PixelFormat where
  | PIXELFORMAT_RGBA8
  | other (code : Nat)
  deriving DecidableEq, Repr

/-- Modelled from the spec: `love::image::ImageData` lives outside src; the
window reads its pixel format and, in disabled code, its size. -/
structure ImageData where
  format : PixelFormat
  width : Int
  height : Int
  deriving DecidableEq, Repr

/-- The accessor `imgd->getFormat()`. -/
def ImageData.getFormat (imgd : ImageData) : PixelFormat :=
  imgd.format

/-- The data members of `love::window::libretro::Window`.  The member `open`
is spelled `open_`; a pointer is an `Option`, with `none` for `nullptr`; the
native window handle is kept as an address. -/
structure Window where
  open_ : Bool
  window : Option Nat
  graphics : Option Graphics
  windowWidth : Int
  windowHeight : Int
  pixelWidth : Int
  pixelHeight : Int
  settings : WindowSettings
  title : String
  deriving DecidableEq, Repr

/-- Modelled from the spec: the initial values of the members that the
constructor does not set itself; they come from the default member
initialisers of Window.h, which is outside src. -/
structure WindowMembers where
  windowWidth : Int
  windowHeight : Int
  pixelWidth : Int
  pixelHeight : Int
  settings : WindowSettings
  deriving DecidableEq, Repr

namespace Window

/-- The constructor `Window::Window()`: `open(false)`, `window(nullptr)`; the
graphics reference and the title are default-constructed (null, empty). -/
def new (m : WindowMembers) : Window :=
  { open_ := false
    window := none
    graphics := none
    windowWidth := m.windowWidth
    windowHeight := m.windowHeight
    pixelWidth := m.pixelWidth
    pixelHeight := m.pixelHeight
    settings := m.settings
    title := "" }

/-- The member function `setGraphics`. -/
def setGraphics (self : Window) (graphics : Option Graphics) : Window :=
  { self with graphics := graphics }

/-- The test `graphics.get() && graphics->isCanvasActive()`. -/
def canvasActive (self : Window) : Bool :=
  match self.graphics with
  | some g => g.isCanvasActive
  | none => false

/-- The member function `setWindow(width, height, settings)`.  `registry` is
what `Module::getInstance<graphics::Graphics>(Module::M_GRAPHICS)` returns; it
is consulted only when no graphics subsystem is attached.  The local copy `f`
of the supplied settings is never read. -/
def setWindow (self : Window) (registry : Option Graphics) (_width _height : Int)
    (settings : Option WindowSettings) : Outcome Bool × Window :=
  let self := if self.graphics.isNone then { self with graphics := registry } else self
  if self.canvasActive then
    (Outcome.raised
      "love.window.setMode cannot be called while a Canvas is active in love.graphics.", self)
  else
    let _f : WindowSettings :=
      match settings with
      | some s => s
      | none => default
    (Outcome.returned true, { self with open_ := true })

/-- The member function `updateSettings`, whose body is empty. -/
def updateSettings (self : Window) (_newsettings : WindowSettings)
    (_updateGraphicsViewport : Bool) : Window :=
  self

/-- The member function `getWindow(width, height, newsettings)`; the three
reference parameters are returned. -/
def getWindow (self : Window) : (Int × Int × WindowSettings) × Window :=
  let self := if self.window.isSome then self.updateSettings self.settings true else self
  ((self.windowWidth, self.windowHeight, self.settings), self)

/-- The member function `close(bool allowExceptions)`. -/
def close (self : Window) (allowExceptions : Bool) : Outcome Unit × Window :=
  match self.graphics with
  | some g =>
    if allowExceptions && g.isCanvasActive then
      (Outcome.raised
        "love.window.close cannot be called while a Canvas is active in love.graphics.", self)
    else
      (Outcome.returned (), { self with graphics := some g.unSetMode, open_ := false })
  | none => (Outcome.returned (), { self with open_ := false })

/-- The member function `isOpen`. -/
def isOpen (self : Window) : Bool :=
  self.open_

/-- The member function `getWidth`. -/
def getWidth (self : Window) : Int :=
  self.windowWidth

/-- The member function `getHeight`. -/
def getHeight (self : Window) : Int :=
  self.windowHeight

/-- The member function `getPixelWidth`. -/
def getPixelWidth (self : Window) : Int :=
  self.pixelWidth

/-- The member function `getPixelHeight`. -/
def getPixelHeight (self : Window) : Int :=
  self.pixelHeight

/-- The member function `getNativeDPIScale`, in the build without
`LOVE_ANDROID`. -/
def getNativeDPIScale {D : Type} (A : DoubleOps D) (self : Window) : D :=
  A.div (A.ofInt self.pixelHeight) (A.ofInt self.windowHeight)

/-- The member function `getDPIScale`. -/
def getDPIScale {D : Type} (A : DoubleOps D) (self : Window) : D :=
  if self.settings.usedpiscale then getNativeDPIScale A self else A.one

/-- The overload `toPixels(wx, wy, px, py)`; the two outputs are returned. -/
def toPixels {D : Type} (A : DoubleOps D) (self : Window) (wx wy : D) : D × D :=
  let scale := getDPIScale A self
  (A.mul wx scale, A.mul wy scale)

/-- The overload `fromPixels(px, py, wx, wy)`; the two outputs are returned. -/
def fromPixels {D : Type} (A : DoubleOps D) (self : Window) (px py : D) : D × D :=
  let scale := getDPIScale A self
  (A.div px scale, A.div py scale)

/-- The member function `onSizeChanged(width, height)`. -/
def onSizeChanged {D : Type} (A : DoubleOps D) (self : Window) (width height : Int) : Bool × Window :=
  if self.window.isNone then
    (false, self)
  else
    let self := { self with windowWidth := width, windowHeight := height }
    match self.graphics with
    | some g =>
      let scaled := fromPixels A self (A.ofInt self.pixelWidth) (A.ofInt self.pixelHeight)
      (true, { self with graphics := some (g.setViewportSize (A.toInt scaled.1)
        (A.toInt scaled.2) self.pixelWidth self.pixelHeight) })
    | none => (true, self)

/-- The member function `windowToPixelCoords(x, y)`; a null pointer is `none`
and the pointed-to values after the call are returned. -/
def windowToPixelCoords {D : Type} (A : DoubleOps D) (self : Window) (x y : Option D) :
    Option D × Option D :=
  (x.map fun x => A.mul x (A.div (A.ofInt self.pixelWidth) (A.ofInt self.windowWidth)),
   y.map fun y => A.mul y (A.div (A.ofInt self.pixelHeight) (A.ofInt self.windowHeight)))

/-- The member function `pixelToWindowCoords(x, y)`. -/
def pixelToWindowCoords {D : Type} (A : DoubleOps D) (self : Window) (x y : Option D) :
    Option D × Option D :=
  (x.map fun x => A.mul x (A.div (A.ofInt self.windowWidth) (A.ofInt self.pixelWidth)),
   y.map fun y => A.mul y (A.div (A.ofInt self.windowHeight) (A.ofInt self.pixelHeight)))

/-- The member function `windowToDPICoords(x, y)`. -/
def windowToDPICoords {D : Type} (A : DoubleOps D) (self : Window) (x y : Option D) :
    Option D × Option D :=
  let px := x.getD A.zero
  let py := y.getD A.zero
  let p := windowToPixelCoords A self (some px) (some py)
  let dpi := fromPixels A self (p.1.getD px) (p.2.getD py)
  (x.map fun _ => dpi.1, y.map fun _ => dpi.2)

/-- The member function `getIcon`, which returns `nullptr`. -/
def getIcon (_self : Window) : Option ImageData :=
  none

/-- The member function `setIcon(imgd)`; the block under `#if 0` is not
compiled. -/
def setIcon (self : Window) (imgd : Option ImageData) : Outcome Bool × Window :=
  match imgd with
  | none => (Outcome.returned false, self)
  | some img =>
    if img.getFormat ≠ PixelFormat.PIXELFORMAT_RGBA8 then
      (Outcome.raised "setIcon only accepts 32-bit RGBA images.", self)
    else
      (Outcome.returned false, self)

end Window

/-! ## Plugin lifecycle (`main.cpp`) -/

/-- A call into the Lua C API (or the LOVE helper `luax_resume`), without the
engine handle it is made on. -/
inductive LuaOp where
  | luaL_openlibs
  | lua_getglobal (name : String)
  | lua_getfield (idx : Int) (k : String)
  | lua_pushcfunction (f : String)
  | lua_setfield (idx : Int) (k : String)
  | lua_pop (n : Int)
  | lua_pushstring (s : String)
  | lua_call (nargs nresults : Int)
  | lua_close
  | lua_newtable
  | lua_rawseti (idx : Int) (n : Int)
  | lua_setglobal (name : String)
  | lua_pushboolean (b : Int)
  | lua_newthread
  | lua_pushvalue (idx : Int)
  | lua_gettop
  | luax_resume (nargs : Int)
  /-- The closing `lua_pop` of `retro_run`, which drops what the resume left on
  the stack. -/
  | lua_pop_results
  deriving DecidableEq, Repr

/-- The pixel format requested from the host. -/
inductive retro_pixel_format where
  | RETRO_PIXEL_FORMAT_XRGB8888
  deriving DecidableEq, Repr

/-- The context type requested from the host. -/
inductive retro_hw_context_type where
  | RETRO_HW_CONTEXT_NONE
  | RETRO_HW_CONTEXT_OPENGL_CORE
  deriving DecidableEq, Repr

/-- The fields of `struct retro_hw_render_callback` that `hw_context_setup`
touches; a function pointer is an `Option`, a plugin callback is kept by
name and a host callback by address. -/
structure retro_hw_render_callback where
  context_type : retro_hw_context_type
  context_reset : Option String
  get_current_framebuffer : Option Nat
  depth : Bool
  stencil : Bool
  bottom_left_origin : Bool
  version_major : Nat
  version_minor : Nat
  context_destroy : Option String
  debug_context : Bool
  deriving DecidableEq, Repr

/-- A command sent through the environment callback, with its payload. -/
inductive EnvCmd where
  | RETRO_ENVIRONMENT_SET_PIXEL_FORMAT (pf : retro_pixel_format)
  | RETRO_ENVIRONMENT_SET_HW_RENDER (cb : retro_hw_render_callback)
  deriving DecidableEq, Repr

/-- What the plugin does to the world outside `main.cpp`, in program order. -/
inductive Effect where
  /-- A call `g_retro_set_env(cmd, data)` through the stored pointer. -/
  | env (callback : Option Nat) (cmd : EnvCmd)
  /-- A line written with `fprintf(stderr, ...)`. -/
  | stderr (line : String)
  /-- A Lua API call on the handle `L`. -/
  | lua (L : Option Nat) (op : LuaOp)
  /-- The call `love::graphics::opengl::gl.restoreState()`. -/
  | gl_restoreState
  deriving DecidableEq, Repr

/-- The file-scope variables of `main.cpp` and the log of effects so far. -/
structure Plugin where
  L : Option Nat
  g_retro_set_env : Option Nat
  g_retro_video : Option Nat
  g_retro_get_current_framebuffer : Option Nat
  log : List Effect
  deriving DecidableEq, Repr

/-- What the host answers during one `hw_context_setup`: the return values of
the two environment calls and the accessor it leaves in the
`get_current_framebuffer` field of the request. -/
structure HostReplies where
  pixelFormat : Bool
  hwRender : Bool
  get_current_framebuffer : Option Nat
  deriving DecidableEq, Repr

/-- The argument of `retro_load_game`. -/
structure retro_game_info where
  path : String
  deriving DecidableEq, Repr

namespace Plugin

/-- The state at program start: every file-scope pointer is `nullptr`. -/
def initial : Plugin :=
  { L := none
    g_retro_set_env := none
    g_retro_video := none
    g_retro_get_current_framebuffer := none
    log := [] }

/-- Appends effects to the log. -/
def emit (s : Plugin) (es : List Effect) : Plugin :=
  { s with log := s.log ++ es }

end Plugin

/-- The entry point `retro_set_environment`. -/
def retro_set_environment (s : Plugin) (env : Option Nat) : Plugin :=
  { s with g_retro_set_env := env }

/-- The entry point `retro_set_video_refresh`. -/
def retro_set_video_refresh (s : Plugin) (sendFrame : Option Nat) : Plugin :=
  { s with g_retro_video := sendFrame }

/-- The entry point `retro_reset`, whose body is empty. -/
def retro_reset (s : Plugin) : Plugin :=
  s

/-- The Lua calls of the static function `love_preload(L, f, name)`. -/
def love_preload (L : Option Nat) (f name : String) : List Effect :=
  [Effect.lua L (LuaOp.lua_getglobal "package"),
   Effect.lua L (LuaOp.lua_getfield (-1) "preload"),
   Effect.lua L (LuaOp.lua_pushcfunction f),
   Effect.lua L (LuaOp.lua_setfield (-2) name),
   Effect.lua L (LuaOp.lua_pop 2)]

/-- The entry point `retro_init`; `newstate` is what `luaL_newstate()`
returns. -/
def retro_init (s : Plugin) (newstate : Option Nat) : Plugin :=
  let s := { s with L := newstate }
  let s := s.emit [Effect.lua s.L LuaOp.luaL_openlibs]
  let s := s.emit (love_preload s.L "luaopen_love_jitsetup" "love.jitsetup")
  s.emit [Effect.lua s.L (LuaOp.lua_getglobal "require"),
          Effect.lua s.L (LuaOp.lua_pushstring "love.jitsetup"),
          Effect.lua s.L (LuaOp.lua_call 1 0)]

/-- The entry point `retro_deinit`: `lua_close(L); L = nullptr;`. -/
def retro_deinit (s : Plugin) : Plugin :=
  let s := s.emit [Effect.lua s.L LuaOp.lua_close]
  { s with L := none }

/-- The request that `hw_context_setup` fills in before it sends it. -/
def hwRequest : retro_hw_render_callback :=
  { context_type := retro_hw_context_type.RETRO_HW_CONTEXT_OPENGL_CORE
    context_reset := some "hw_context_reset"
    get_current_framebuffer := none
    depth := true
    stencil := true
    bottom_left_origin := true
    version_major := 4
    version_minor := 5
    context_destroy := some "hw_context_destroy"
    debug_context := true }

/-- The static function `hw_context_setup`. -/
def hw_context_setup (s : Plugin) (host : HostReplies) : Plugin :=
  let pf := retro_pixel_format.RETRO_PIXEL_FORMAT_XRGB8888
  let s := s.emit [Effect.env s.g_retro_set_env (EnvCmd.RETRO_ENVIRONMENT_SET_PIXEL_FORMAT pf)]
  let s := if !host.pixelFormat then s.emit [Effect.stderr "failed to set pixel format\n"] else s
  let hw_render_callback := hwRequest
  let s := s.emit
    [Effect.env s.g_retro_set_env (EnvCmd.RETRO_ENVIRONMENT_SET_HW_RENDER hw_render_callback)]
  let hw_render_callback :=
    { hw_render_callback with get_current_framebuffer := host.get_current_framebuffer }
  let res : Int := if host.hwRender then 1 else 0
  let s := s.emit [Effect.stderr ("SET_HW_RENDER:" ++ toString res ++ "\n")]
  if res ≠ 0 then
    { s with g_retro_get_current_framebuffer := hw_render_callback.get_current_framebuffer }
  else
    s

/-- The entry point `retro_load_game`; `host` holds the answers of the host
during the negotiation. -/
def retro_load_game (s : Plugin) (game : retro_game_info) (host : HostReplies) :
    Bool × Plugin :=
  let s := hw_context_setup s host
  let argc : Nat := 2
  let argv : List String := ["love", game.path]
  let s := s.emit (love_preload s.L "luaopen_love" "love")
  let s := s.emit [Effect.lua s.L LuaOp.lua_newtable]
  let s := if argc > 0 then
      s.emit [Effect.lua s.L (LuaOp.lua_pushstring (argv.getD 0 "")),
              Effect.lua s.L (LuaOp.lua_rawseti (-2) (-2))]
    else s
  let s := s.emit [Effect.lua s.L (LuaOp.lua_pushstring "embedded boot.lua"),
                   Effect.lua s.L (LuaOp.lua_rawseti (-2) (-1))]
  let s := (List.range' 1 (argc - 1)).foldl
    (fun s i => s.emit [Effect.lua s.L (LuaOp.lua_pushstring (argv.getD i "")),
                        Effect.lua s.L (LuaOp.lua_rawseti (-2) i)]) s
  let s := s.emit [Effect.lua s.L (LuaOp.lua_setglobal "arg")]
  let s := s.emit [Effect.lua s.L (LuaOp.lua_getglobal "require"),
                   Effect.lua s.L (LuaOp.lua_pushstring "love"),
                   Effect.lua s.L (LuaOp.lua_call 1 1)]
  let s := s.emit [Effect.lua s.L (LuaOp.lua_pushboolean 1),
                   Effect.lua s.L (LuaOp.lua_setfield (-2) "_exe")]
  let s := s.emit [Effect.lua s.L (LuaOp.lua_pop 1)]
  let s := s.emit [Effect.lua s.L (LuaOp.lua_getglobal "require"),
                   Effect.lua s.L (LuaOp.lua_pushstring "love.boot"),
                   Effect.lua s.L (LuaOp.lua_call 1 1)]
  let s := s.emit [Effect.lua s.L LuaOp.lua_newthread,
                   Effect.lua s.L (LuaOp.lua_pushvalue (-2))]
  (true, s)

/-- The entry point `retro_unload_game`, whose body is empty. -/
def retro_unload_game (s : Plugin) : Plugin :=
  s

/-- The entry point `retro_run`. -/
def retro_run (s : Plugin) : Plugin :=
  match s.L with
  | none => s
  | some _ =>
    s.emit [Effect.gl_restoreState,
            Effect.lua s.L LuaOp.lua_gettop,
            Effect.lua s.L (LuaOp.luax_resume 0),
            Effect.lua s.L LuaOp.lua_pop_results]

/-- A call of the host into the plugin, with the values the outside world
supplies during it. -/
inductive HostCall where
  | set_environment (env : Option Nat)
  | set_video_refresh (sendFrame : Option Nat)
  | init (newstate : Option Nat)
  | deinit
  | load_game (game : retro_game_info) (host : HostReplies)
  | unload_game
  | run
  | reset
  deriving DecidableEq, Repr

/-- Runs one host call. -/
def HostCall.step (s : Plugin) : HostCall → Plugin
  | .set_environment env => retro_set_environment s env
  | .set_video_refresh f => retro_set_video_refresh s f
  | .init newstate => retro_init s newstate
  | .deinit => retro_deinit s
  | .load_game game host => (retro_load_game s game host).2
  | .unload_game => retro_unload_game s
  | .run => retro_run s
  | .reset => retro_reset s

/-- Runs a sequence of host calls, first to last. -/
def Plugin.exec (s : Plugin) (calls : List HostCall) : Plugin :=
  calls.foldl HostCall.step s

/-- Whether a host call is a game load whose hardware-rendering request the
host accepts. -/
def HostCall.acceptsHw : HostCall → Bool
  | .load_game _ host => host.hwRender
  | _ => false

/-! ## Concrete inputs used by the closed statements below -/

/-- A settings snapshot with DPI scaling switched on. -/
def settingsA : WindowSettings :=
  { width := 800, height := 600, fullscreen := false, fstype := 0, usedpiscale := true,
    vsync := 1, resizable := false, borderless := false, alwaysontop := false }

/-- A settings snapshot that differs from `settingsA`: fullscreen, no DPI
scaling. -/
def settingsB : WindowSettings :=
  { width := 1024, height := 768, fullscreen := true, fstype := 1, usedpiscale := false,
    vsync := 0, resizable := true, borderless := false, alwaysontop := false }

/-- Member defaults of an 800 by 600 window backed by 800 by 600 pixels. -/
def membersA : WindowMembers :=
  { windowWidth := 800, windowHeight := 600, pixelWidth := 800, pixelHeight := 600,
    settings := settingsA }

/-- A graphics subsystem with a canvas active and nothing logged yet. -/
def graphicsBusy : Graphics :=
  { canvasActive := true, calls := [] }

/-- A graphics subsystem with no canvas active and nothing logged yet. -/
def graphicsIdle : Graphics :=
  { canvasActive := false, calls := [] }

/-- A window with a native handle, 1 by 1 logical units on 2 by 2 pixels, DPI
scaling off. -/
def windowHiDpi : Window :=
  { open_ := true, window := some 1, graphics := some graphicsIdle,
    windowWidth := 1, windowHeight := 1, pixelWidth := 2, pixelHeight := 2,
    settings := settingsB, title := "" }

/-- A host that accepts both requests and hands out the accessor at address
7. -/
def hostAccepting : HostReplies :=
  { pixelFormat := true, hwRender := true, get_current_framebuffer := some 7 }

/-- A host that rejects both requests and writes no accessor. -/
def hostRejecting : HostReplies :=
  { pixelFormat := false, hwRender := false, get_current_framebuffer := none }

/-- The game used in the closed statements. -/
def gameA : retro_game_info :=
  { path := "game.lua" }

/-- A plugin with the environment callback registered and the engine
created. -/
def pluginReady : Plugin :=
  retro_init (retro_set_environment Plugin.initial (some 1)) (some 2)

/-- Both axes of a coordinate pair divided by a scale, a null pointer left null:
the operation that C7 names in its own words. -/
def divideAxes {D : Type} (A : DoubleOps D) (scale : D) (p : Option D × Option D) :
    Option D × Option D :=
  (p.1.map fun x => A.div x scale, p.2.map fun y => A.div y scale)

/-! ## Window: raising, settings, resizing, icon -/

/-- C1: when the attached graphics subsystem reports an active canvas,
`setWindow` (any arguments, any registry content) and `close(true)` both end in
a `throw`, and the window, its `open` flag included, is as it was before the
call. -/
theorem setWindow_close_raise_when_canvas_active (w : Window) (g : Graphics)
    (hg : w.graphics = some g) (hc : g.isCanvasActive = true)
    (registry : Option Graphics) (width height : Int) (settings : Option WindowSettings) :
    (w.setWindow registry width height settings).1.isRaised = true ∧
    (w.setWindow registry width height settings).2.open_ = w.open_ ∧
    (w.setWindow registry width height settings).2 = w ∧
    (w.close true).1.isRaised = true ∧
    (w.close true).2.open_ = w.open_ ∧
    (w.close true).2 = w := by
  have hset : w.setWindow registry width height settings =
      (Outcome.raised
        "love.window.setMode cannot be called while a Canvas is active in love.graphics.", w) := by
    simp [Window.setWindow, Window.canvasActive, hg, hc]
  have hclose : w.close true =
      (Outcome.raised
        "love.window.close cannot be called while a Canvas is active in love.graphics.", w) := by
    simp [Window.close, hg, hc]
  rw [hset, hclose]
  simp [Outcome.isRaised]

/-- Witness for C1: an open window with a busy graphics subsystem attached. -/
theorem setWindow_close_raise_when_canvas_active_witness :
    ((Window.new membersA).setGraphics (some graphicsBusy)).graphics = some graphicsBusy ∧
    graphicsBusy.isCanvasActive = true ∧
    (((Window.new membersA).setGraphics (some graphicsBusy)).setWindow none 640 480
        (some settingsB)).1.isRaised = true ∧
    (((Window.new membersA).setGraphics (some graphicsBusy)).close true).1.isRaised = true := by
  have h := setWindow_close_raise_when_canvas_active
    ((Window.new membersA).setGraphics (some graphicsBusy)) graphicsBusy rfl rfl none 640 480
    (some settingsB)
  exact ⟨rfl, rfl, h.1, h.2.2.2.1⟩

/-- C2, as stated, fails: on a fresh window that holds `settingsA`, a successful
`setWindow` with `settingsB` is followed by a `getWindow` that still hands back
`settingsA`. -/
theorem setWindow_getWindow_drops_snapshot :
    (Window.new membersA).canvasActive = false ∧
    ((Window.new membersA).setWindow none 1024 768 (some settingsB)).1 = Outcome.returned true ∧
    ((Window.new membersA).setWindow none 1024 768 (some settingsB)).2.getWindow.1.2.2
      ≠ settingsB ∧
    ((Window.new membersA).setWindow none 1024 768 (some settingsB)).2.getWindow.1.2.2
      = settingsA := by
  decide

/-- C2, amended: after a successful `setWindow` the window is open, and an
immediately following `getWindow` hands back the logical size and the settings
snapshot that were stored before the `setWindow` call; the supplied width,
height and settings are not stored. -/
theorem setWindow_getWindow_keeps_stored (w : Window) (registry : Option Graphics)
    (width height : Int) (settings : Option WindowSettings)
    (hok : (w.setWindow registry width height settings).1 = Outcome.returned true) :
    (w.setWindow registry width height settings).2.isOpen = true ∧
    (w.setWindow registry width height settings).2.settings = w.settings ∧
    (w.setWindow registry width height settings).2.getWindow.1
      = (w.windowWidth, w.windowHeight, w.settings) ∧
    (w.setWindow registry width height settings).2.getWindow.2
      = (w.setWindow registry width height settings).2 := by
  unfold Window.setWindow at hok ⊢
  unfold Window.getWindow Window.updateSettings Window.isOpen
  by_cases hgr : w.graphics.isNone = true <;>
    (simp only [hgr] at hok ⊢; split_ifs at hok ⊢ <;> simp_all)

/-- Witness for C2 amended: the fresh window of the counterexample. -/
theorem setWindow_getWindow_keeps_stored_witness :
    ((Window.new membersA).setWindow none 1024 768 (some settingsB)).1
      = Outcome.returned true ∧
    ((Window.new membersA).setWindow none 1024 768 (some settingsB)).2.getWindow.1
      = (800, 600, settingsA) :=
  ⟨by decide,
    (setWindow_getWindow_keeps_stored (Window.new membersA) none 1024 768 (some settingsB)
      (by decide)).2.2.1⟩

/-- C3: on a freshly constructed window, with or without a graphics subsystem
attached through `setGraphics`, `onSizeChanged` returns `false` and hands back
the window unchanged: logical size, pixel size and the log of calls received by
the graphics subsystem are as before. -/
theorem onSizeChanged_fresh_window {D : Type} (A : DoubleOps D) (m : WindowMembers)
    (g : Option Graphics) (width height : Int) :
    Window.onSizeChanged A (Window.new m) width height = (false, Window.new m) ∧
    Window.onSizeChanged A ((Window.new m).setGraphics g) width height
      = (false, (Window.new m).setGraphics g) ∧
    (Window.onSizeChanged A ((Window.new m).setGraphics g) width height).2.windowWidth
      = m.windowWidth ∧
    (Window.onSizeChanged A ((Window.new m).setGraphics g) width height).2.windowHeight
      = m.windowHeight ∧
    (Window.onSizeChanged A ((Window.new m).setGraphics g) width height).2.pixelWidth
      = m.pixelWidth ∧
    (Window.onSizeChanged A ((Window.new m).setGraphics g) width height).2.pixelHeight
      = m.pixelHeight ∧
    (Window.onSizeChanged A ((Window.new m).setGraphics g) width height).2.graphics = g := by
  simp [Window.onSizeChanged, Window.new, Window.setGraphics]

/-- C4, as stated, fails: a fresh window opened by a successful `setWindow`
reports `isOpen`, yet `onSizeChanged(640, 480)` returns `false` and the logical
size stays 800 by 600. -/
theorem onSizeChanged_after_setWindow_returns_false :
    ((Window.new membersA).setWindow (some graphicsIdle) 800 600 (some settingsA)).1
      = Outcome.returned true ∧
    ((Window.new membersA).setWindow (some graphicsIdle) 800 600 (some settingsA)).2.isOpen
      = true ∧
    (Window.onSizeChanged exactOps
      ((Window.new membersA).setWindow (some graphicsIdle) 800 600 (some settingsA)).2
      640 480).1 = false ∧
    (Window.onSizeChanged exactOps
      ((Window.new membersA).setWindow (some graphicsIdle) 800 600 (some settingsA)).2
      640 480).2.getWidth = 800 := by
  decide

/-- C4, amended: `onSizeChanged` is gated by the native window handle, which
`setWindow` neither creates nor changes.  For every window whose handle is
non-null, `onSizeChanged(width, height)` returns `true`; afterwards
`getWidth()` is `width` and `getHeight()` is `height`, the pixel size is as
before, and an attached graphics subsystem has received one more call,
`setViewportSize((int)(pixelWidth / s), (int)(pixelHeight / s), pixelWidth,
pixelHeight)` with `s` the DPI scale of the resized window. -/
theorem onSizeChanged_with_handle {D : Type} (A : DoubleOps D) (w : Window)
    (width height : Int) (hwin : w.window.isSome = true) :
    (Window.onSizeChanged A w width height).1 = true ∧
    (Window.onSizeChanged A w width height).2.getWidth = width ∧
    (Window.onSizeChanged A w width height).2.getHeight = height ∧
    (Window.onSizeChanged A w width height).2.getPixelWidth = w.pixelWidth ∧
    (Window.onSizeChanged A w width height).2.getPixelHeight = w.pixelHeight ∧
    (Window.onSizeChanged A w width height).2.graphics =
      w.graphics.map (fun g => g.setViewportSize
        (A.toInt (A.div (A.ofInt w.pixelWidth)
          (Window.getDPIScale A { w with windowWidth := width, windowHeight := height })))
        (A.toInt (A.div (A.ofInt w.pixelHeight)
          (Window.getDPIScale A { w with windowWidth := width, windowHeight := height })))
        w.pixelWidth w.pixelHeight) ∧
    (∀ (registry : Option Graphics) (wd ht : Int) (settings : Option WindowSettings),
      (w.setWindow registry wd ht settings).2.window = w.window) := by
  have hne : w.window.isNone = false := by
    cases hw : w.window with
    | none => simp [hw] at hwin
    | some a => rfl
  refine ⟨?_, ?_, ?_, ?_, ?_, ?_, ?_⟩
  all_goals try (unfold Window.onSizeChanged; cases hgr : w.graphics <;>
    simp [hne, hgr, Window.getWidth, Window.getHeight, Window.getPixelWidth,
      Window.getPixelHeight, Window.fromPixels])
  intro registry wd ht settings
  unfold Window.setWindow
  by_cases hgr : w.graphics.isNone = true <;>
    (simp only [hgr]; split_ifs <;> simp)

/-- Witness for C4 amended: a window with a handle, resized to 4 by 2. -/
theorem onSizeChanged_with_handle_witness :
    windowHiDpi.window.isSome = true ∧
    (Window.onSizeChanged exactOps windowHiDpi 4 2).1 = true ∧
    (Window.onSizeChanged exactOps windowHiDpi 4 2).2.getWidth = 4 ∧
    (Window.onSizeChanged exactOps windowHiDpi 4 2).2.getHeight = 2 :=
  ⟨rfl, (onSizeChanged_with_handle exactOps windowHiDpi 4 2 rfl).1,
    (onSizeChanged_with_handle exactOps windowHiDpi 4 2 rfl).2.1,
    (onSizeChanged_with_handle exactOps windowHiDpi 4 2 rfl).2.2.1⟩

/-- C5: for every non-null image, `setIcon` ends in a `throw` exactly when the
pixel format of the image is not `PIXELFORMAT_RGBA8`; for an RGBA8 image it
returns `false`; in both cases the window is handed back unchanged and
`getIcon` still returns null. -/
theorem setIcon_raises_iff_not_rgba8 (w : Window) (img : ImageData) :
    ((w.setIcon (some img)).1.isRaised = true
      ↔ img.getFormat ≠ PixelFormat.PIXELFORMAT_RGBA8) ∧
    (w.setIcon (some { img with format := PixelFormat.PIXELFORMAT_RGBA8 })).1
      = Outcome.returned false ∧
    (w.setIcon (some img)).2 = w ∧
    (w.setIcon (some img)).2.getIcon = none ∧
    w.getIcon = none := by
  unfold Window.setIcon Window.getIcon ImageData.getFormat
  by_cases hf : img.format = PixelFormat.PIXELFORMAT_RGBA8 <;> simp [hf, Outcome.isRaised]

/-! ## Window: coordinate transforms -/

/-- C6: over exact rational arithmetic, for a window whose logical and pixel
sizes are all strictly positive, `windowToPixelCoords` followed by
`pixelToWindowCoords` hands back the coordinates it was given (a null pointer
stays null). -/
theorem windowToPixel_pixelToWindow_roundtrip (w : Window)
    (hww : 0 < w.windowWidth) (hwh : 0 < w.windowHeight)
    (hpw : 0 < w.pixelWidth) (hph : 0 < w.pixelHeight) (x y : Option ℚ) :
    Window.pixelToWindowCoords exactOps w
      (Window.windowToPixelCoords exactOps w x y).1
      (Window.windowToPixelCoords exactOps w x y).2 = (x, y) := by
  have h1 : (w.windowWidth : ℚ) ≠ 0 := by exact_mod_cast hww.ne.symm
  have h2 : (w.windowHeight : ℚ) ≠ 0 := by exact_mod_cast hwh.ne.symm
  have h3 : (w.pixelWidth : ℚ) ≠ 0 := by exact_mod_cast hpw.ne.symm
  have h4 : (w.pixelHeight : ℚ) ≠ 0 := by exact_mod_cast hph.ne.symm
  cases x <;> cases y <;>
    simp [Window.pixelToWindowCoords, Window.windowToPixelCoords, exactOps] <;>
    field_simp

/-- Witness for C6: the point (3, 5) on a 1 by 1 window backed by 2 by 2
pixels. -/
theorem windowToPixel_pixelToWindow_roundtrip_witness :
    (0 < windowHiDpi.windowWidth ∧ 0 < windowHiDpi.windowHeight ∧
      0 < windowHiDpi.pixelWidth ∧ 0 < windowHiDpi.pixelHeight) ∧
    Window.pixelToWindowCoords exactOps windowHiDpi
      (Window.windowToPixelCoords exactOps windowHiDpi (some 3) (some 5)).1
      (Window.windowToPixelCoords exactOps windowHiDpi (some 3) (some 5)).2
      = (some 3, some 5) :=
  ⟨by decide,
    windowToPixel_pixelToWindow_roundtrip windowHiDpi (by decide) (by decide) (by decide)
      (by decide) (some 3) (some 5)⟩

/-- C7, as stated, fails: with `usedpiscale = false`, on a 1 by 1 window backed
by 2 by 2 pixels, `windowToDPICoords(1, 1)` is (2, 2), while the pixel
coordinates (2, 2) divided by the native DPI scale 2 are (1, 1). -/
theorem windowToDPICoords_not_native_scale :
    windowHiDpi.settings.usedpiscale = false ∧
    Window.getNativeDPIScale exactOps windowHiDpi = 2 ∧
    Window.windowToDPICoords exactOps windowHiDpi (some 1) (some 1) = (some 2, some 2) ∧
    divideAxes exactOps (Window.getNativeDPIScale exactOps windowHiDpi)
      (Window.windowToPixelCoords exactOps windowHiDpi (some 1) (some 1)) = (some 1, some 1) ∧
    Window.windowToDPICoords exactOps windowHiDpi (some 1) (some 1) ≠
      divideAxes exactOps (Window.getNativeDPIScale exactOps windowHiDpi)
        (Window.windowToPixelCoords exactOps windowHiDpi (some 1) (some 1)) := by
  refine ⟨rfl, ?_, ?_, ?_, ?_⟩ <;>
    norm_num [Window.getNativeDPIScale, Window.windowToDPICoords, Window.windowToPixelCoords,
      Window.fromPixels, Window.getDPIScale, divideAxes, exactOps, windowHiDpi, settingsB]

/-- C7, amended: for every interpretation of `double` arithmetic, every window
and every coordinate pair, `windowToDPICoords` is `windowToPixelCoords` with
both axes divided by `getDPIScale()`, which is `getNativeDPIScale()` when
`usedpiscale` is set and `1.0` when it is not. -/
theorem windowToDPICoords_divides_by_dpi_scale {D : Type} (A : DoubleOps D) (w : Window)
    (x y : Option D) :
    Window.windowToDPICoords A w x y
      = divideAxes A (Window.getDPIScale A w) (Window.windowToPixelCoords A w x y) ∧
    Window.getDPIScale A w
      = (if w.settings.usedpiscale then Window.getNativeDPIScale A w else A.one) ∧
    Window.windowToDPICoords A { w with settings := { w.settings with usedpiscale := true } } x y
      = divideAxes A (Window.getNativeDPIScale A w) (Window.windowToPixelCoords A w x y) := by
  refine ⟨?_, rfl, ?_⟩ <;>
    cases x <;> cases y <;>
    simp [Window.windowToDPICoords, Window.windowToPixelCoords, Window.fromPixels,
      Window.getDPIScale, Window.getNativeDPIScale, divideAxes]

/-! ## Plugin lifecycle: frames, teardown, negotiation -/

/-- Logging leaves the engine handle alone. -/
@[simp]
theorem Plugin.emit_L (s : Plugin) (es : List Effect) : (s.emit es).L = s.L := rfl

/-- Logging leaves the environment callback alone. -/
@[simp]
theorem Plugin.emit_env (s : Plugin) (es : List Effect) :
    (s.emit es).g_retro_set_env = s.g_retro_set_env := rfl

/-- Logging leaves the framebuffer accessor alone. -/
@[simp]
theorem Plugin.emit_framebuffer (s : Plugin) (es : List Effect) :
    (s.emit es).g_retro_get_current_framebuffer = s.g_retro_get_current_framebuffer := rfl

/-- Logging appends to the log. -/
@[simp]
theorem Plugin.emit_log (s : Plugin) (es : List Effect) :
    (s.emit es).log = s.log ++ es := rfl

/-- With an engine present, `retro_run` restores the graphics state and resumes
the task on that engine. -/
theorem retro_run_with_engine (s : Plugin) (h : Nat) (hL : s.L = some h) :
    (retro_run s).log = s.log ++
      [Effect.gl_restoreState, Effect.lua (some h) LuaOp.lua_gettop,
       Effect.lua (some h) (LuaOp.luax_resume 0), Effect.lua (some h) LuaOp.lua_pop_results] := by
  simp [retro_run, hL]

/-- The accessor after a rejected hardware-rendering request is the one held
before. -/
theorem hw_context_setup_rejected (s : Plugin) (host : HostReplies)
    (hrej : host.hwRender = false) :
    (hw_context_setup s host).g_retro_get_current_framebuffer
      = s.g_retro_get_current_framebuffer := by
  unfold hw_context_setup
  cases hpf : host.pixelFormat <;> simp [hrej]

/-- The game load keeps the accessor that `hw_context_setup` leaves. -/
theorem retro_load_game_framebuffer (s : Plugin) (game : retro_game_info)
    (host : HostReplies) :
    (retro_load_game s game host).2.g_retro_get_current_framebuffer
      = (hw_context_setup s host).g_retro_get_current_framebuffer := by
  simp [retro_load_game, List.range']

/-- A host call other than an accepted game load keeps the accessor. -/
theorem HostCall.step_framebuffer (s : Plugin) (c : HostCall) (hc : c.acceptsHw = false) :
    (HostCall.step s c).g_retro_get_current_framebuffer
      = s.g_retro_get_current_framebuffer := by
  cases c with
  | load_game game host =>
    simp only [HostCall.step, retro_load_game_framebuffer]
    exact hw_context_setup_rejected s host hc
  | run =>
    simp only [HostCall.step, retro_run]
    cases s.L <;> simp
  | _ => simp [HostCall.step, retro_set_environment, retro_set_video_refresh, retro_init,
      retro_deinit, retro_unload_game, retro_reset]

/-- A sequence of host calls without an accepted game load keeps the
accessor. -/
theorem Plugin.exec_framebuffer (calls : List HostCall) :
    ∀ s : Plugin, (∀ c ∈ calls, HostCall.acceptsHw c = false) →
      (s.exec calls).g_retro_get_current_framebuffer = s.g_retro_get_current_framebuffer := by
  induction calls with
  | nil => intro s _; rfl
  | cons c rest ih =>
    intro s hall
    have hrest : ∀ c ∈ rest, HostCall.acceptsHw c = false :=
      fun d hd => hall d (List.mem_cons_of_mem c hd)
    have hstep := HostCall.step_framebuffer s c (hall c (List.mem_cons_self c rest))
    simpa [Plugin.exec, List.foldl_cons, hstep] using ih (HostCall.step s c) hrest

/-- C8: in every state whose engine handle `L` is null, `retro_run` hands the
state back unchanged: nothing is added to the log of effects (no graphics
restore, no resume) and no variable changes.  `retro_deinit` leaves `L` null
from every state, so a `retro_run` after it is such a no-op, and so is one in
the state at program start. -/
theorem retro_run_noop_without_engine (s : Plugin) (hL : s.L = none) :
    retro_run s = s ∧
    (retro_run s).log = s.log ∧
    (∀ s0 : Plugin, (retro_deinit s0).L = none ∧
      retro_run (retro_deinit s0) = retro_deinit s0) ∧
    retro_run Plugin.initial = Plugin.initial := by
  refine ⟨?_, ?_, ?_, rfl⟩
  · simp [retro_run, hL]
  · simp [retro_run, hL]
  · intro s0
    exact ⟨rfl, rfl⟩

/-- Witness for C8: a frame requested after init, load and deinit. -/
theorem retro_run_noop_without_engine_witness :
    (retro_deinit (retro_load_game pluginReady gameA hostAccepting).2).L = none ∧
    retro_run (retro_deinit (retro_load_game pluginReady gameA hostAccepting).2)
      = retro_deinit (retro_load_game pluginReady gameA hostAccepting).2 :=
  ⟨rfl, (retro_run_noop_without_engine
    (retro_deinit (retro_load_game pluginReady gameA hostAccepting).2) rfl).1⟩

/-- C9, the code at the failing input: in the state at program start the
engine handle is null, and `retro_deinit` calls `lua_close` on that null
handle; `retro_run` in the same state makes no call at all. -/
theorem retro_deinit_closes_null_handle :
    Plugin.initial.L = none ∧
    (retro_deinit Plugin.initial).log = [Effect.lua none LuaOp.lua_close] ∧
    (retro_deinit Plugin.initial).L = none ∧
    (retro_run Plugin.initial).log = [] := by
  decide

/-- C10, as stated, fails: after a load whose negotiation the host accepted
with the accessor at address 7, a second load that the host rejects leaves
that accessor in place instead of null. -/
theorem hw_context_setup_keeps_stale_accessor :
    hostRejecting.hwRender = false ∧
    (retro_load_game pluginReady gameA hostAccepting).2.g_retro_get_current_framebuffer
      = some 7 ∧
    (hw_context_setup (retro_unload_game (retro_load_game pluginReady gameA hostAccepting).2)
      hostRejecting).g_retro_get_current_framebuffer = some 7 ∧
    (hw_context_setup (retro_unload_game (retro_load_game pluginReady gameA hostAccepting).2)
      hostRejecting).g_retro_get_current_framebuffer ≠ none := by
  decide

/-- C10, amended: when the host rejects the hardware-rendering request,
`hw_context_setup` leaves the framebuffer accessor as it was before the call;
it is null after every history of host calls in which no negotiation was
accepted, the first load included.  The hardware-rendering request is sent
whatever the answer to the pixel-format request, and `retro_load_game` goes on
to the engine bootstrap and returns `true`. -/
theorem hw_context_setup_rejected_keeps_accessor (s : Plugin) (host : HostReplies)
    (game : retro_game_info) (hrej : host.hwRender = false) :
    (hw_context_setup s host).g_retro_get_current_framebuffer
      = s.g_retro_get_current_framebuffer ∧
    (∀ calls : List HostCall, (∀ c ∈ calls, HostCall.acceptsHw c = false) →
      (hw_context_setup (Plugin.initial.exec calls) host).g_retro_get_current_framebuffer
        = none) ∧
    Effect.env s.g_retro_set_env (EnvCmd.RETRO_ENVIRONMENT_SET_HW_RENDER hwRequest)
      ∈ (hw_context_setup s host).log ∧
    (retro_load_game s game host).1 = true ∧
    (retro_load_game s game host).2.g_retro_get_current_framebuffer
      = s.g_retro_get_current_framebuffer ∧
    Effect.lua s.L LuaOp.lua_newthread ∈ (retro_load_game s game host).2.log := by
  refine ⟨hw_context_setup_rejected s host hrej, ?_, ?_, rfl, ?_, ?_⟩
  · intro calls hall
    rw [hw_context_setup_rejected _ host hrej, Plugin.exec_framebuffer calls _ hall]
    rfl
  · unfold hw_context_setup
    cases hpf : host.pixelFormat <;> simp [hrej]
  · rw [retro_load_game_framebuffer]
    exact hw_context_setup_rejected s host hrej
  · have hLs : (hw_context_setup s host).L = s.L := by
      unfold hw_context_setup
      cases hpf : host.pixelFormat <;> simp [hrej]
    simp [retro_load_game, List.range', hLs]

/-- Witness for C10 amended: the first load, rejected by the host. -/
theorem hw_context_setup_rejected_keeps_accessor_witness :
    hostRejecting.hwRender = false ∧
    (hw_context_setup pluginReady hostRejecting).g_retro_get_current_framebuffer = none ∧
    (retro_load_game pluginReady gameA hostRejecting).1 = true :=
  ⟨rfl, (hw_context_setup_rejected_keeps_accessor pluginReady hostRejecting gameA rfl).1,
    (hw_context_setup_rejected_keeps_accessor pluginReady hostRejecting gameA rfl).2.2.2.1⟩

end Love
